import Mathlib

/-!
Shallow embedding of the experiment-orchestration core of the
CVPR2020-FGVC7 repository, i.e. the class `ExperimentHelper` in
`src/utils/experiment_utils.py` and its use by `src/train.py`.

Modelling conventions:
* Python floats that only ever participate in order comparisons and
  copies (losses, accuracies, ROC scores) are modelled as rationals `ℚ`;
  the sentinel `float('inf')` stored in `best_val_loss` is modelled as
  `⊤ : WithTop ℚ`.
* The on-disk ledger `result.csv` is modelled as `Option (List CsvRow)`
  where `none` means `os.path.isfile` is false (the file does not exist).
* Tensorboard emission (`tb_writer.add_scalar`) is modelled as the list
  of scalar events a call produces.
* `torch.save` calls are modelled as the list of `(path, payload)` writes
  a call performs.
* External fallible computations (the loss function and the metric
  generators) are modelled as `Except`-valued functions; an exception in
  Python corresponds to an `Except.error` value that the embedding
  propagates through the `do`-sequencing, exactly mirroring the statement
  order of the source.
-/

namespace FGVC

/-- `ExperimentHelper.should_trigger` (lines 51-54):
`if self.freq: return (i + 1) % self.freq == 0` / `return True`.
The Python guard `if self.freq:` is truthiness: both `None` and `0` take
the `return True` branch.  `self.freq` is written once in `__init__` and
never mutated, so the method is a pure function of `(freq, i)`. -/
def should_trigger (freq : Option Nat) (i : Nat) : Bool :=
  match freq with
  | none => true
  | some f => if f == 0 then true else (i + 1) % f == 0

/-- Comparator transcribed from the spec, section 4.3:
`improves_minimized(candidate, best) = candidate <= best` (ties improve).
It is compared against the inline test `self.best_val_loss >= val_loss`
of `validate` (line 125). -/
def improves_minimized (candidate : ℚ) (best : WithTop ℚ) : Bool :=
  decide ((candidate : WithTop ℚ) ≤ best)

/-- Comparator transcribed from the spec, section 4.3:
`improves_maximized(candidate, best) = candidate > best` (ties do not
improve).  It is compared against the inline test
`self.best_val_roc < val_roc` of `validate` (line 141). -/
def improves_maximized (candidate : ℚ) (best : ℚ) : Bool :=
  decide (best < candidate)

/-- One data row of `result.csv`, as built by `validate` (line 99):
`[[epoch + 1, val_loss, train_loss, val_acc, train_acc, val_roc, train_roc]]`. -/
structure LedgerEntry where
  epoch : Nat
  val_loss : ℚ
  train_loss : ℚ
  val_acc : ℚ
  train_acc : ℚ
  val_roc : ℚ
  train_roc : ℚ
deriving DecidableEq, Repr

/-- A physical row of `result.csv`: either the fixed header row
`["epoch", "Loss ( Val )", ...]` or a data row. -/
inductive CsvRow
  | header
  | data (e : LedgerEntry)
deriving DecidableEq, Repr

/-- Whether a CSV row is the header row. -/
def CsvRow.isHeader : CsvRow → Bool
  | .header => true
  | .data _ => false

/-- The epochs recorded in the data rows of a ledger file (first column),
in order; `[]` for a missing file. -/
def rowEpochs : Option (List CsvRow) → List Nat
  | none => []
  | some rows => rows.filterMap fun r =>
      match r with
      | .header => none
      | .data e => some e.epoch

/-- The `df.to_csv` logic of `validate` (lines 103-112): when the file
does not exist (`not path.isfile(result_path)`) the row is written
preceded by the header; otherwise the row is appended (`mode='a'`,
`header=False`) after the existing rows, leaving them untouched.  The
decision is made from the on-disk file state alone. -/
def ledgerAppend (file : Option (List CsvRow)) (e : LedgerEntry) : List CsvRow :=
  match file with
  | none => [.header, .data e]
  | some rows => rows ++ [.data e]

/-- Repeated ledger appends, threading the file state: after any append
the file exists. -/
def ledgerAppendAll (file : Option (List CsvRow)) (es : List LedgerEntry) :
    Option (List CsvRow) :=
  es.foldl (fun f e => some (ledgerAppend f e)) file

/-- One `tb_writer.add_scalar(tag, value, step)` call (lines 116-122). -/
structure ScalarEvent where
  tag : String
  value : ℚ
  step : Nat
deriving DecidableEq, Repr

/-- The mutable state of an `ExperimentHelper` instance that the claims
are about, plus the on-disk ledger it owns.  The `result` dictionary used
only by `publish` is omitted. -/
structure HelperState where
  experiment_name : String
  best_val_loss : WithTop ℚ
  best_val_roc : ℚ
  progress_loss : Bool
  progress_roc : Bool
  ledger : Option (List CsvRow)
  has_tb : Bool
deriving DecidableEq, Repr

/-- The state fields set by `ExperimentHelper.__init__` (lines 33-49):
`best_val_loss = float('inf')`, `best_val_roc = 0`, both progress flags
start `False`; a fresh run workspace holds no `result.csv`. -/
def initState (name : String) (has_tb : Bool) : HelperState :=
  { experiment_name := name
    best_val_loss := ⊤
    best_val_roc := 0
    progress_loss := false
    progress_roc := false
    ledger := none
    has_tb := has_tb }

/-- The six metric scalars computed at the top of `validate`
(lines 74-95) before any state is touched. -/
structure Metrics where
  val_loss : ℚ
  train_loss : ℚ
  val_acc : ℚ
  train_acc : ℚ
  val_roc : ℚ
  train_roc : ℚ
deriving DecidableEq, Repr

/-- Everything a `validate` call produces: the updated helper state, the
tensorboard events emitted, and the returned tuple (line 147). -/
structure ValidateResult where
  state : HelperState
  events : List ScalarEvent
  ret : ℚ × ℚ × ℚ × ℚ × ℚ × ℚ
deriving DecidableEq, Repr

/-- `ExperimentHelper.validate` (lines 97-147), given the already
computed metric scalars: appends `[epoch + 1, ...]` to `result.csv`,
emits one scalar per metric per split at step `epoch` when a tensorboard
writer is present, then updates the loss tracker
(`if self.best_val_loss >= val_loss`, ties improve) and the roc tracker
(`if self.best_val_roc < val_roc`, ties do not improve) independently,
recomputing both progress flags. -/
def validate (s : HelperState) (m : Metrics) (epoch : Nat) : ValidateResult :=
  { state :=
      { s with
        ledger := some (ledgerAppend s.ledger
          ⟨epoch + 1, m.val_loss, m.train_loss, m.val_acc, m.train_acc,
            m.val_roc, m.train_roc⟩)
        best_val_loss :=
          if (m.val_loss : WithTop ℚ) ≤ s.best_val_loss then
            (m.val_loss : WithTop ℚ)
          else s.best_val_loss
        progress_loss := decide ((m.val_loss : WithTop ℚ) ≤ s.best_val_loss)
        best_val_roc :=
          if s.best_val_roc < m.val_roc then m.val_roc else s.best_val_roc
        progress_roc := decide (s.best_val_roc < m.val_roc) }
    events :=
      if s.has_tb then
        [⟨"Loss/Train", m.train_loss, epoch⟩,
         ⟨"Loss/Validation", m.val_loss, epoch⟩,
         ⟨"Accuracy/Train", m.train_acc, epoch⟩,
         ⟨"Accuracy/Validation", m.val_acc, epoch⟩,
         ⟨"ROC/Train", m.train_roc, epoch⟩,
         ⟨"ROC/Validation", m.val_roc, epoch⟩]
      else []
    ret := (m.val_loss, m.train_loss, m.val_acc, m.train_acc,
            m.val_roc, m.train_roc) }

/-- `ExperimentHelper.is_progress` (lines 56-57). -/
def is_progress (s : HelperState) : Bool :=
  s.progress_loss || s.progress_roc

/-- `path.join('results', self.experiment_name, 'weights_loss.pth')`. -/
def lossCheckpointPath (name : String) : String :=
  "results/" ++ name ++ "/weights_loss.pth"

/-- `path.join('results', self.experiment_name, 'weights_roc.pth')`. -/
def rocCheckpointPath (name : String) : String :=
  "results/" ++ name ++ "/weights_roc.pth"

/-- `ExperimentHelper.save_checkpoint` (lines 59-69): the `torch.save`
writes it performs, as `(path, payload)` pairs; the same `state_dict`
argument is written to each selected file. -/
def save_checkpoint {α : Type} (s : HelperState) (state_dict : α) :
    List (String × α) :=
  (if s.progress_loss then
    [(lossCheckpointPath s.experiment_name, state_dict)] else [])
  ++ (if s.progress_roc then
    [(rocCheckpointPath s.experiment_name, state_dict)] else [])

/-- The sequence of helper states produced by a sequence of `validate`
calls (each element is the state after the corresponding call). -/
def runTrace (s : HelperState) : List (Metrics × Nat) → List HelperState
  | [] => []
  | c :: rest =>
      let s2 := (validate s c.1 c.2).state
      s2 :: runTrace s2 rest

/-- First call of the spec's three-call scenario:
`val_loss = 1.0`, `val_score = 0.5` (other metric fields irrelevant). -/
def scenarioMetrics1 : Metrics := ⟨1, 0, 0, 0, mkRat 1 2, 0⟩

/-- Second call of the scenario: `val_loss = 0.9`, `val_score = 0.4`. -/
def scenarioMetrics2 : Metrics := ⟨mkRat 9 10, 0, 0, 0, mkRat 2 5, 0⟩

/-- Third call of the scenario: `val_loss = 0.95`, `val_score = 0.6`. -/
def scenarioMetrics3 : Metrics := ⟨mkRat 19 20, 0, 0, 0, mkRat 3 5, 0⟩

/-- The `(save_for_loss, save_for_score)` decisions of the three
scenario calls, starting from the freshly initialized tracker. -/
def scenarioDecisions : List (Bool × Bool) :=
  (runTrace (initState "r1" false)
      [(scenarioMetrics1, 0), (scenarioMetrics2, 1), (scenarioMetrics3, 2)]).map
    fun st => (st.progress_loss, st.progress_roc)

/-- A concrete metric snapshot used for closed-form evaluations. -/
def exampleMetrics : Metrics := ⟨1, 2, 3, 4, mkRat 1 2, mkRat 3 5⟩

/-- Sample ledger entries for closed-form evaluations. -/
def entryA : LedgerEntry := ⟨1, 1, 1, 1, 1, 1, 1⟩

/-- A second sample ledger entry. -/
def entryB : LedgerEntry := ⟨2, 2, 2, 2, 2, 2, 2⟩

/-- The `results/` tree, as an association of directory names to the
files they hold. -/
abbrev FileSys := List (String × List String)

/-- Outcome of workspace preparation in `__init__` (lines 19-31). -/
inductive PrepResult
  | fresh
  | overwritten
  | runAlreadyExists
deriving DecidableEq, Repr

/-- Workspace preparation from `ExperimentHelper.__init__` (lines 19-31):
missing directory is created (`makedirs`, Fresh); an existing directory
with `overwrite=True` is removed recursively (`rmtree`) and recreated
empty (Overwritten); an existing directory with `overwrite=False` hits
`exit()`, modelled by the `runAlreadyExists` result: the process
terminates and the filesystem is left unchanged. -/
def prepare (fs : FileSys) (name : String) (overwrite : Bool) :
    PrepResult × FileSys :=
  match fs.lookup name with
  | none => (.fresh, (name, []) :: fs)
  | some _ =>
      if overwrite then
        (.overwritten, (name, []) :: fs.eraseP (fun p => p.1 == name))
      else
        (.runAlreadyExists, fs)

/-- The output-list conversion of `validate` (lines 79-87): applied to
the train and validation outputs exactly when
`pred_type == 'regression' or pred_type == 'mixed'`. -/
def convertOutputs {α : Type} (pred_type : String) (convert : α → α)
    (train_output val_output : α) : α × α :=
  if pred_type == "regression" || pred_type == "mixed" then
    (convert train_output, convert val_output)
  else (train_output, val_output)

/-- `ExperimentHelper.validate` (lines 71-147) with its external
computations made explicit and fallible: the loss function is called on
the validation pair, then the training pair (lines 74-77); outputs are
converted for regression and mixed prediction types (lines 79-87); then
accuracy and ROC are computed for each split (lines 89-95).  Only after
all of these succeed does any state change happen (ledger append,
telemetry, best-tracker update), via `validate`.  An `Except.error`
propagates unchanged through the sequencing, uncaught and unretried. -/
def validateE {α E : Type} (pred_type : String) (convert : α → α)
    (loss_fn accuracy_fn roc_fn : α → α → Except E ℚ)
    (val_output val_target train_output train_target : α)
    (s : HelperState) (epoch : Nat) : Except E ValidateResult := do
  let val_loss ← loss_fn val_output val_target
  let train_loss ← loss_fn train_output train_target
  let outs := convertOutputs pred_type convert train_output val_output
  let val_acc ← accuracy_fn outs.2 val_target
  let train_acc ← accuracy_fn outs.1 train_target
  let val_roc ← roc_fn outs.2 val_target
  let train_roc ← roc_fn outs.1 train_target
  pure (validate s
    ⟨val_loss, train_loss, val_acc, train_acc, val_roc, train_roc⟩ epoch)

/-- The failure of an external metric computation. -/
inductive MetricError
  | computation_failure
deriving DecidableEq, Repr

/-- A loss function that fails on the (True, True) pair and succeeds
elsewhere; used for closed-form evaluations of error propagation. -/
def flakyLoss : Bool → Bool → Except MetricError ℚ :=
  fun a b => if a && b then .error .computation_failure else .ok 1

/-- A metric function that always succeeds. -/
def okMetric : Bool → Bool → Except MetricError ℚ :=
  fun _ _ => .ok 0

/-- A metric snapshot sharing only `val_loss` with `scenarioMetrics1`;
every other field, `val_roc` included, differs. -/
def scenarioMetrics1Alt : Metrics := ⟨1, 5, 5, 5, 5, 5⟩

/-- A metric snapshot sharing only `val_roc` with `scenarioMetrics1`;
every other field, `val_loss` included, differs. -/
def scenarioMetrics1RocAlt : Metrics := ⟨7, 5, 5, 5, mkRat 1 2, 5⟩

/-! Helper lemmas: the fields of the state produced by `validate`. -/

@[simp] theorem validate_state_best_val_loss (s : HelperState) (m : Metrics) (ep : Nat) :
    (validate s m ep).state.best_val_loss =
      if (m.val_loss : WithTop ℚ) ≤ s.best_val_loss then (m.val_loss : WithTop ℚ)
      else s.best_val_loss := rfl

@[simp] theorem validate_state_best_val_roc (s : HelperState) (m : Metrics) (ep : Nat) :
    (validate s m ep).state.best_val_roc =
      if s.best_val_roc < m.val_roc then m.val_roc else s.best_val_roc := rfl

@[simp] theorem validate_state_progress_loss (s : HelperState) (m : Metrics) (ep : Nat) :
    (validate s m ep).state.progress_loss =
      decide ((m.val_loss : WithTop ℚ) ≤ s.best_val_loss) := rfl

@[simp] theorem validate_state_progress_roc (s : HelperState) (m : Metrics) (ep : Nat) :
    (validate s m ep).state.progress_roc =
      decide (s.best_val_roc < m.val_roc) := rfl

@[simp] theorem validate_state_ledger (s : HelperState) (m : Metrics) (ep : Nat) :
    (validate s m ep).state.ledger =
      some (ledgerAppend s.ledger
        ⟨ep + 1, m.val_loss, m.train_loss, m.val_acc, m.train_acc,
          m.val_roc, m.train_roc⟩) := rfl

@[simp] theorem validate_events_def (s : HelperState) (m : Metrics) (ep : Nat) :
    (validate s m ep).events =
      (if s.has_tb then
        [⟨"Loss/Train", m.train_loss, ep⟩,
         ⟨"Loss/Validation", m.val_loss, ep⟩,
         ⟨"Accuracy/Train", m.train_acc, ep⟩,
         ⟨"Accuracy/Validation", m.val_acc, ep⟩,
         ⟨"ROC/Train", m.train_roc, ep⟩,
         ⟨"ROC/Validation", m.val_roc, ep⟩]
      else []) := rfl

theorem validate_best_loss_le (s : HelperState) (m : Metrics) (ep : Nat) :
    (validate s m ep).state.best_val_loss ≤ s.best_val_loss := by
  rw [validate_state_best_val_loss]
  split
  · assumption
  · exact le_refl _

theorem validate_best_roc_le (s : HelperState) (m : Metrics) (ep : Nat) :
    s.best_val_roc ≤ (validate s m ep).state.best_val_roc := by
  rw [validate_state_best_val_roc]
  split
  · exact le_of_lt (by assumption)
  · exact le_refl _

theorem ledgerAppendAll_some (rows : List CsvRow) (es : List LedgerEntry) :
    ledgerAppendAll (some rows) es = some (rows ++ es.map CsvRow.data) := by
  induction es generalizing rows with
  | nil => simp [ledgerAppendAll]
  | cons e rest ih =>
      have h1 : ledgerAppendAll (some rows) (e :: rest) =
          ledgerAppendAll (some (rows ++ [CsvRow.data e])) rest := rfl
      rw [h1, ih]
      simp

theorem checkpointPaths_ne (name : String) :
    lossCheckpointPath name ≠ rocCheckpointPath name := by
  intro h
  have h2 := congrArg String.length h
  simp [lossCheckpointPath, rocCheckpointPath, String.length_append] at h2
  exact (by decide :
    ¬ ("/weights_loss.pth" : String).length = ("/weights_roc.pth" : String).length) h2

theorem save_checkpoint_mem_loss {α : Type} (s : HelperState) (ms : α) :
    ((lossCheckpointPath s.experiment_name, ms) ∈ save_checkpoint s ms) ↔
      s.progress_loss = true := by
  unfold save_checkpoint
  cases hl : s.progress_loss <;> cases hr : s.progress_roc <;>
    simp [checkpointPaths_ne s.experiment_name]

theorem save_checkpoint_mem_roc {α : Type} (s : HelperState) (ms : α) :
    ((rocCheckpointPath s.experiment_name, ms) ∈ save_checkpoint s ms) ↔
      s.progress_roc = true := by
  have hne := (checkpointPaths_ne s.experiment_name).symm
  unfold save_checkpoint
  cases hl : s.progress_loss <;> cases hr : s.progress_roc <;> simp [hne]

theorem save_checkpoint_payload {α : Type} (s : HelperState) (ms : α) :
    ∀ w ∈ save_checkpoint s ms, w.2 = ms := by
  intro w hw
  simp only [save_checkpoint, List.mem_append] at hw
  rcases hw with h | h
  · revert h; split
    · intro h; simp at h; simp [h]
    · intro h; simp at h
  · revert h; split
    · intro h; simp at h; simp [h]
    · intro h; simp at h

/-! Claim theorems. -/

/-- C1: for every epoch index `e` and positive frequency `f`,
`should_trigger` with configured frequency `f` returns true iff
`(e + 1) % f == 0`; with the frequency unset (`None`) it returns true for
every `e`.  The embedding is a pure function of `(freq, i)`, matching the
source method, which reads only the immutable field `self.freq`. -/
theorem should_trigger_spec (e f : Nat) (hf : 0 < f) :
    (should_trigger (some f) e = true ↔ (e + 1) % f = 0) ∧
    should_trigger none e = true := by
  constructor
  · simp [should_trigger, Nat.pos_iff_ne_zero.mp hf]
  · rfl

/-- Witness for C1 at `e = 3`, `f = 2`. -/
theorem should_trigger_spec_witness :
    0 < 2 ∧ (should_trigger (some 2) 3 = true ↔ (3 + 1) % 2 = 0) :=
  ⟨by decide, (should_trigger_spec 3 2 (by decide)).1⟩

/-- C2: the two comparators are asymmetric on ties.  The loss comparison
used by `validate` (line 125, `self.best_val_loss >= val_loss`) treats a
candidate `c` as an improvement over best `b` exactly when `c ≤ b` (ties
improve), while the score comparison (line 141,
`self.best_val_roc < val_roc`) treats `c` as an improvement exactly when
`c > b` (ties do not improve); in particular a loss tie at `5` improves
and a score tie at `0.8` does not. -/
theorem comparator_tie_asymmetry (c : ℚ) (b : WithTop ℚ) (b' : ℚ)
    (s : HelperState) (m : Metrics) (ep : Nat) :
    (improves_minimized c b = true ↔ (c : WithTop ℚ) ≤ b) ∧
    (improves_maximized c b' = true ↔ b' < c) ∧
    improves_minimized 5 ((5 : ℚ) : WithTop ℚ) = true ∧
    improves_maximized (mkRat 4 5) (mkRat 4 5) = false ∧
    (validate s m ep).state.progress_loss =
      improves_minimized m.val_loss s.best_val_loss ∧
    (validate s m ep).state.progress_roc =
      improves_maximized m.val_roc s.best_val_roc := by
  refine ⟨?_, ?_, by decide, by decide, rfl, rfl⟩
  · simp [improves_minimized]
  · simp [improves_maximized]

/-- C3: `best_val_loss` is initialized to `+∞` and `best_val_roc` to the
metric's minimum possible value `0`, and along any finite sequence of
`validate` calls the successive states have non-increasing
`best_val_loss` and non-decreasing `best_val_roc`. -/
theorem best_tracker_monotone (name : String) (tb : Bool) (s : HelperState)
    (calls : List (Metrics × Nat)) :
    (initState name tb).best_val_loss = ⊤ ∧
    (initState name tb).best_val_roc = 0 ∧
    List.Chain' (fun a b : HelperState =>
        b.best_val_loss ≤ a.best_val_loss ∧ a.best_val_roc ≤ b.best_val_roc)
      (s :: runTrace s calls) := by
  refine ⟨rfl, rfl, ?_⟩
  induction calls generalizing s with
  | nil => simp [runTrace]
  | cons c rest ih =>
      simp only [runTrace]
      rw [List.chain'_cons]
      exact ⟨⟨validate_best_loss_le s c.1 c.2, validate_best_roc_le s c.1 c.2⟩,
        ih ((validate s c.1 c.2).state)⟩

/-- C4: the two checkpoint decisions of a `validate` call are
independent, never coupled: whenever two calls agree on `val_loss` and
on the incoming `best_val_loss`, they produce the same loss flag — even
if their `val_roc`, `best_val_roc`, epoch and every other state or
metric field differ; symmetrically, agreement on `val_roc` and
`best_val_roc` alone forces the same score flag.  And the spec's
three-call scenario with `val_loss = [1.0, 0.9, 0.95]`,
`val_score = [0.5, 0.4, 0.6]` starting from the fresh tracker yields the
decisions `[(T, T), (T, F), (F, T)]`. -/
theorem save_decisions_independent
    (s s' : HelperState) (m m' : Metrics) (ep ep' : Nat) :
    (s.best_val_loss = s'.best_val_loss → m.val_loss = m'.val_loss →
      (validate s m ep).state.progress_loss =
        (validate s' m' ep').state.progress_loss) ∧
    (s.best_val_roc = s'.best_val_roc → m.val_roc = m'.val_roc →
      (validate s m ep).state.progress_roc =
        (validate s' m' ep').state.progress_roc) ∧
    scenarioDecisions = [(true, true), (true, false), (false, true)] := by
  refine ⟨?_, ?_, by decide⟩
  · intro hb hl
    rw [validate_state_progress_loss, validate_state_progress_loss, hl, hb]
  · intro hbr hr
    rw [validate_state_progress_roc, validate_state_progress_roc, hr, hbr]

/-- Witness for C4: the loss decision agrees across two snapshots whose
score data differ (`scenarioMetrics1` vs `scenarioMetrics1Alt`), and the
score decision agrees across two snapshots whose loss data differ
(`scenarioMetrics1` vs `scenarioMetrics1RocAlt`). -/
theorem save_decisions_independent_witness :
    ((initState "a" false).best_val_loss = (initState "b" true).best_val_loss ∧
     scenarioMetrics1.val_loss = scenarioMetrics1Alt.val_loss ∧
     (validate (initState "a" false) scenarioMetrics1 0).state.progress_loss =
       (validate (initState "b" true) scenarioMetrics1Alt 7).state.progress_loss) ∧
    ((initState "a" false).best_val_roc = (initState "b" true).best_val_roc ∧
     scenarioMetrics1.val_roc = scenarioMetrics1RocAlt.val_roc ∧
     (validate (initState "a" false) scenarioMetrics1 0).state.progress_roc =
       (validate (initState "b" true) scenarioMetrics1RocAlt 7).state.progress_roc) :=
  ⟨⟨rfl, rfl, (save_decisions_independent (initState "a" false)
      (initState "b" true) scenarioMetrics1 scenarioMetrics1Alt 0 7).1 rfl rfl⟩,
   ⟨rfl, rfl, (save_decisions_independent (initState "a" false)
      (initState "b" true) scenarioMetrics1 scenarioMetrics1RocAlt 0 7).2.1
      rfl rfl⟩⟩

/-- C5: appending the entries `es` (at least one) to a run with no
ledger file produces exactly one header row, written first and only on
the first append, followed by the data rows of `es` in order; whether
the header is written is decided by the match on the on-disk file state
in `ledgerAppend` (no in-memory flag exists in the model), and an append
to an existing file keeps every previously committed row unmodified as a
prefix. -/
theorem ledger_header_once (es : List LedgerEntry) (h : es ≠ []) :
    ledgerAppendAll none es = some (CsvRow.header :: es.map CsvRow.data) ∧
    (CsvRow.header :: es.map CsvRow.data).countP (fun r => r.isHeader) = 1 ∧
    (CsvRow.header :: es.map CsvRow.data).countP (fun r => !r.isHeader) =
      es.length ∧
    ∀ rows e, ledgerAppend (some rows) e = rows ++ [CsvRow.data e] := by
  obtain ⟨e, rest, rfl⟩ := List.exists_cons_of_ne_nil h
  refine ⟨?_, ?_, ?_, fun _ _ => rfl⟩
  · have h1 : ledgerAppendAll none (e :: rest) =
        ledgerAppendAll (some [CsvRow.header, CsvRow.data e]) rest := rfl
    rw [h1, ledgerAppendAll_some]
    simp
  · simp [List.countP_cons, List.countP_map, CsvRow.isHeader, Function.comp]
  · simp [List.countP_cons, List.countP_map, CsvRow.isHeader, Function.comp]

/-- Witness for C5 with the two sample entries. -/
theorem ledger_header_once_witness :
    ([entryA, entryB] ≠ ([] : List LedgerEntry)) ∧
    ledgerAppendAll none [entryA, entryB] =
      some (CsvRow.header :: [entryA, entryB].map CsvRow.data) :=
  ⟨by decide, (ledger_header_once [entryA, entryB] (by decide)).1⟩

/-- C6, counterexample: a triggered `validate` call at epoch 0 appends a
ledger row whose first (epoch) column holds `1`, while every telemetry
event of the same call carries step `0`; the row's epoch column is not
the epoch argument. -/
theorem ledger_epoch_column_cex :
    rowEpochs (validate (initState "r" true) exampleMetrics 0).state.ledger
      = [1] ∧
    (validate (initState "r" true) exampleMetrics 0).events.map
      (fun ev => ev.step) = [0, 0, 0, 0, 0, 0] ∧
    (1 : Nat) ≠ 0 := by
  refine ⟨rfl, rfl, by decide⟩

/-- C6 as amended: the ledger row appended by a `validate` call at epoch
`ep` carries `ep + 1` in its first (epoch) column — one greater than the
epoch value `ep` that is passed as the step to every telemetry emit of
that call. -/
theorem ledger_epoch_column (s : HelperState) (m : Metrics) (ep : Nat) :
    rowEpochs (validate s m ep).state.ledger = rowEpochs s.ledger ++ [ep + 1] ∧
    (validate s m ep).events.map (fun ev => ev.step) =
      (if s.has_tb then [ep, ep, ep, ep, ep, ep] else []) := by
  constructor
  · cases hl : s.ledger with
    | none => simp [hl, ledgerAppend, rowEpochs]
    | some rows =>
        simp [hl, ledgerAppend, rowEpochs, List.filterMap_append]
  · cases htb : s.has_tb <;> simp [htb]

/-- C7: preparing a run whose directory does not exist creates it
(`fresh`); preparing an existing directory with `overwrite = true`
removes it recursively and recreates it empty (`overwritten`); preparing
an existing directory with `overwrite = false` yields
`runAlreadyExists`, the result modelling the `exit()` call that
terminates the process, leaving the filesystem unchanged.  Hence
preparing the same name twice with `overwrite = false` yields `fresh`
then `runAlreadyExists`. -/
theorem workspace_lifecycle (fs : FileSys) (name : String) :
    (fs.lookup name = none →
      (prepare fs name false).1 = PrepResult.fresh ∧
      (prepare fs name false).2.lookup name = some [] ∧
      (prepare (prepare fs name false).2 name false).1 =
        PrepResult.runAlreadyExists) ∧
    (∀ files, fs.lookup name = some files →
      ((prepare fs name true).1 = PrepResult.overwritten ∧
       (prepare fs name true).2.lookup name = some []) ∧
      ((prepare fs name false).1 = PrepResult.runAlreadyExists ∧
       (prepare fs name false).2 = fs)) := by
  constructor
  · intro h
    refine ⟨?_, ?_, ?_⟩ <;> simp [prepare, h, List.lookup]
  · intro files h
    refine ⟨⟨?_, ?_⟩, ?_, ?_⟩ <;> simp [prepare, h, List.lookup]

/-- Witness for C7: run `"x"` on an empty tree, then on a tree already
holding `"x"`. -/
theorem workspace_lifecycle_witness :
    (([] : FileSys).lookup "x" = none ∧
      ((prepare [] "x" false).1 = PrepResult.fresh ∧
       (prepare [] "x" false).2.lookup "x" = some [] ∧
       (prepare (prepare [] "x" false).2 "x" false).1 =
         PrepResult.runAlreadyExists)) ∧
    (([("x", ["w"])] : FileSys).lookup "x" = some ["w"] ∧
      (((prepare [("x", ["w"])] "x" true).1 = PrepResult.overwritten ∧
        (prepare [("x", ["w"])] "x" true).2.lookup "x" = some []) ∧
       ((prepare [("x", ["w"])] "x" false).1 = PrepResult.runAlreadyExists ∧
        (prepare [("x", ["w"])] "x" false).2 = [("x", ["w"])]))) :=
  ⟨⟨rfl, (workspace_lifecycle [] "x").1 rfl⟩,
   ⟨rfl, (workspace_lifecycle [("x", ["w"])] "x").2 ["w"] rfl⟩⟩

/-- C8: after any `validate` call, `is_progress` returns exactly
`progress_loss OR progress_roc`, and `save_checkpoint state_dict` writes
the `weights_loss.pth` file under the run's `results/` directory iff
`progress_loss` is set and the `weights_roc.pth` file iff `progress_roc`
is set, each write carrying the same `state_dict` payload. -/
theorem checkpoint_persistence {α : Type} (s : HelperState) (m : Metrics)
    (ep : Nat) (ms : α) :
    is_progress (validate s m ep).state =
      ((validate s m ep).state.progress_loss ||
        (validate s m ep).state.progress_roc) ∧
    (((lossCheckpointPath (validate s m ep).state.experiment_name, ms) ∈
        save_checkpoint (validate s m ep).state ms) ↔
      (validate s m ep).state.progress_loss = true) ∧
    (((rocCheckpointPath (validate s m ep).state.experiment_name, ms) ∈
        save_checkpoint (validate s m ep).state ms) ↔
      (validate s m ep).state.progress_roc = true) ∧
    ∀ w ∈ save_checkpoint (validate s m ep).state ms, w.2 = ms :=
  ⟨rfl, save_checkpoint_mem_loss _ _, save_checkpoint_mem_roc _ _,
    save_checkpoint_payload _ _⟩

/-- C9: a failure of the loss function or of a metric function inside
`validate` propagates to the caller as-is — uncaught, unretried, with no
default substituted — and since every external computation precedes the
first state effect in the source, the error result carries no ledger
append and no tracker or flag update: the caller's pre-call state is
untouched. -/
theorem metric_failure_atomic {α E : Type} (pred_type : String)
    (convert : α → α) (loss_fn accuracy_fn roc_fn : α → α → Except E ℚ)
    (vo vt tro trt : α) (s : HelperState) (ep : Nat) (err : E) :
    (loss_fn vo vt = .error err →
      validateE pred_type convert loss_fn accuracy_fn roc_fn
        vo vt tro trt s ep = .error err) ∧
    (∀ q1, loss_fn vo vt = .ok q1 → loss_fn tro trt = .error err →
      validateE pred_type convert loss_fn accuracy_fn roc_fn
        vo vt tro trt s ep = .error err) ∧
    (∀ q1 q2, loss_fn vo vt = .ok q1 → loss_fn tro trt = .ok q2 →
      accuracy_fn (convertOutputs pred_type convert tro vo).2 vt = .error err →
      validateE pred_type convert loss_fn accuracy_fn roc_fn
        vo vt tro trt s ep = .error err) ∧
    (∀ q1 q2 q3, loss_fn vo vt = .ok q1 → loss_fn tro trt = .ok q2 →
      accuracy_fn (convertOutputs pred_type convert tro vo).2 vt = .ok q3 →
      accuracy_fn (convertOutputs pred_type convert tro vo).1 trt = .error err →
      validateE pred_type convert loss_fn accuracy_fn roc_fn
        vo vt tro trt s ep = .error err) ∧
    (∀ q1 q2 q3 q4, loss_fn vo vt = .ok q1 → loss_fn tro trt = .ok q2 →
      accuracy_fn (convertOutputs pred_type convert tro vo).2 vt = .ok q3 →
      accuracy_fn (convertOutputs pred_type convert tro vo).1 trt = .ok q4 →
      roc_fn (convertOutputs pred_type convert tro vo).2 vt = .error err →
      validateE pred_type convert loss_fn accuracy_fn roc_fn
        vo vt tro trt s ep = .error err) ∧
    (∀ q1 q2 q3 q4 q5, loss_fn vo vt = .ok q1 → loss_fn tro trt = .ok q2 →
      accuracy_fn (convertOutputs pred_type convert tro vo).2 vt = .ok q3 →
      accuracy_fn (convertOutputs pred_type convert tro vo).1 trt = .ok q4 →
      roc_fn (convertOutputs pred_type convert tro vo).2 vt = .ok q5 →
      roc_fn (convertOutputs pred_type convert tro vo).1 trt = .error err →
      validateE pred_type convert loss_fn accuracy_fn roc_fn
        vo vt tro trt s ep = .error err) := by
  refine ⟨?_, ?_, ?_, ?_, ?_, ?_⟩
  · intro h1
    simp [validateE, Except.instMonad, Except.bind, Except.map, h1]
  · intro q1 h1 h2
    simp [validateE, Except.instMonad, Except.bind, Except.map, h1, h2]
  · intro q1 q2 h1 h2 h3
    simp [validateE, Except.instMonad, Except.bind, Except.map, h1, h2, h3]
  · intro q1 q2 q3 h1 h2 h3 h4
    simp [validateE, Except.instMonad, Except.bind, Except.map, h1, h2, h3, h4]
  · intro q1 q2 q3 q4 h1 h2 h3 h4 h5
    simp [validateE, Except.instMonad, Except.bind, Except.map, h1, h2, h3, h4, h5]
  · intro q1 q2 q3 q4 q5 h1 h2 h3 h4 h5 h6
    simp [validateE, Except.instMonad, Except.bind, Except.map, h1, h2, h3, h4, h5, h6]

/-- Witness for C9: a loss function that fails on the validation pair
makes `validateE` return exactly that error. -/
theorem metric_failure_atomic_witness :
    flakyLoss true true = .error .computation_failure ∧
    validateE "classification" id flakyLoss okMetric okMetric
      true true false false (initState "w" false) 0 =
      .error .computation_failure :=
  ⟨rfl, (metric_failure_atomic "classification" id flakyLoss okMetric okMetric
    true true false false (initState "w" false) 0 .computation_failure).1 rfl⟩

/-- C10: a helper constructed with `freq = 0` (present but falsy) raises
no error, and `should_trigger` returns true for every epoch index,
exactly as with the frequency unset: Python's `if self.freq:` guard
treats `0` like `None`. -/
theorem freq_zero_triggers_always (e : Nat) :
    should_trigger (some 0) e = true ∧
    should_trigger (some 0) e = should_trigger none e :=
  ⟨rfl, rfl⟩

end FGVC
